import Mathlib

/-!
Shallow embedding of the booking/ticketing subsystem of the BusFleetManager
repository (Django REST backend): the ticket and trip state machines, the
trip capacity ledger, the reference generator, the discount validator and
the booking aggregator, translated from
`bus_fleet_api/tickets/{models,serializers,views}.py` and
`bus_fleet_api/trips/{models,serializers,views}.py`.

Conventions of the embedding:
* Timestamps (`django.utils.timezone.now()`, `DateTimeField`) are integers
  (seconds); `timezone.timedelta(hours=24)` is the constant 86400.
* Django `DecimalField` money amounts are integers (the code only compares
  and copies them, never divides).
* `PositiveIntegerField` counters (`capacity`, `booked_seats`) are `Int`,
  as in Python arithmetic; their non-negativity is a store invariant and
  appears as a hypothesis where needed.
* Foreign keys are surrogate `Nat` ids; the `Trip` row a `Ticket` points to
  is passed alongside the ticket (the FK is non-null, `on_delete=CASCADE`).
* Each HTTP handler / serializer method is a pure function from its inputs
  and the touched rows to an `Except`-style response paired with the rows
  after the request; every Python `return Response(..., 400)` or
  `raise ValidationError` happens before any `.save()`, so those branches
  return the rows unchanged, exactly as in the source control flow.
* `random.choices(string.ascii_uppercase, k=2)` / `random.choices(string.digits, k=6)`
  draws are modelled by an explicit stream of `RefDraw` values (indices into
  the population strings); the unbounded collision-retry `while` loop
  consumes the stream and is undefined (`none`) if the finite stream is
  exhausted, which corresponds to a run of the loop that has not terminated.
-/

namespace BusFleet

/-- Timestamps in seconds. -/
abbrev Time := Int

/-- `timezone.timedelta(hours=24)` in seconds. -/
def hours24 : Int := 86400

/-- `tickets/models.py` — `class TicketStatus(models.TextChoices)`. -/
inductive TicketStatus
  | Reserved
  | Confirmed
  | CheckedIn
  | Used
  | Cancelled
  | Refunded
  | Expired
deriving DecidableEq, Repr

/-- `trips/models.py` — `class TripStatus(models.TextChoices)`. -/
inductive TripStatus
  | Scheduled
  | Active
  | Completed
  | Cancelled
  | Delayed
deriving DecidableEq, Repr

/-- `tickets/models.py` — `class DiscountType(models.TextChoices)`. -/
inductive DiscountType
  | Percentage
  | FixedAmount
deriving DecidableEq, Repr

/-- `buses/models.py` — `class BusStatus(models.TextChoices)`. -/
inductive BusStatus
  | Active
  | Maintenance
  | Inactive
  | Retired
deriving DecidableEq, Repr

/-- `employees/models.py` — `class EmployeeRole(models.TextChoices)`. -/
inductive EmployeeRole
  | Driver
  | Conductor
  | Admin
  | Manager
  | Mechanic
  | CustomerService
  | Other
deriving DecidableEq, Repr

/-- `trips/models.py` — the `event_type` choices of `TripEvent`. -/
inductive TripEventType
  | Departure
  | Arrival
  | Stop
  | Delay
  | Breakdown
  | Accident
  | Weather
  | Other
deriving DecidableEq, Repr

/-- `trips/models.py` — `class Trip(TenantModel)`, the fields the embedded
operations read or write. -/
structure Trip where
  company : Nat
  driver : Nat
  status : TripStatus
  capacity : Int
  booked_seats : Int
  actual_departure : Option Time
  actual_arrival : Option Time
  delay_reason : Option String
  cancellation_reason : Option String
deriving DecidableEq, Repr

/-- `trips/models.py` — `class TripEvent(TenantModel)`, the fields written by
the trip transition handlers. -/
structure TripEvent where
  company : Nat
  event_type : TripEventType
  timestamp : Time
  description : String
  recorded_by : Option Nat
deriving DecidableEq, Repr

/-- `tickets/models.py` — `class Ticket(TenantModel)`, the fields the embedded
operations read or write. -/
structure Ticket where
  company : Nat
  booking_reference : String
  status : TicketStatus
  passenger_name : String
  expires_at : Option Time
  checked_in_at : Option Time
  checked_in_by : Option Nat
  cancellation_reason : Option String
  cancellation_date : Option Time
  refund_amount : Option Int
  refund_date : Option Time
  refund_reference : Option String
  booking : Option Nat
deriving DecidableEq, Repr

/-- `tickets/models.py` — `class Booking(TenantModel)`, the fields used by
`BookingSerializer.create`. -/
structure Booking where
  company : Nat
  id : Nat
  booking_reference : String
deriving DecidableEq, Repr

/-- `tickets/models.py` — `class Discount(TenantModel)`, the fields read by
`DiscountViewSet.validate_code` and `DiscountSerializer.validate`. -/
structure Discount where
  company : Nat
  code : String
  type : DiscountType
  value : Int
  start_date : Time
  end_date : Option Time
  usage_limit : Option Nat
  usage_count : Nat
  is_active : Bool
deriving DecidableEq, Repr

/-! ## Reference generator (`TicketSerializer._generate_booking_reference`,
`BookingSerializer._generate_booking_reference`) -/

/-- Python `string.ascii_uppercase`, the population of the letter draws. -/
def ascii_uppercase : List Char := "ABCDEFGHIJKLMNOPQRSTUVWXYZ".toList

/-- Python `string.digits`, the population of the digit draws. -/
def digitChars : List Char := "0123456789".toList

/-- One round of `random.choices(string.ascii_uppercase, k=2)` and
`random.choices(string.digits, k=6)`: indices into the two populations. -/
structure RefDraw where
  l1 : Fin 26
  l2 : Fin 26
  d1 : Fin 10
  d2 : Fin 10
  d3 : Fin 10
  d4 : Fin 10
  d5 : Fin 10
  d6 : Fin 10
deriving DecidableEq, Repr

theorem ascii_uppercase_length : ascii_uppercase.length = 26 := by decide

theorem digitChars_length : digitChars.length = 10 := by decide

/-- `f"{letters}{digits}"`: the candidate code assembled from one draw. -/
def mkBookingReference (d : RefDraw) : String :=
  String.mk [ascii_uppercase.get (Fin.cast ascii_uppercase_length.symm d.l1),
             ascii_uppercase.get (Fin.cast ascii_uppercase_length.symm d.l2),
             digitChars.get (Fin.cast digitChars_length.symm d.d1),
             digitChars.get (Fin.cast digitChars_length.symm d.d2),
             digitChars.get (Fin.cast digitChars_length.symm d.d3),
             digitChars.get (Fin.cast digitChars_length.symm d.d4),
             digitChars.get (Fin.cast digitChars_length.symm d.d5),
             digitChars.get (Fin.cast digitChars_length.symm d.d6)]

/-- The documented code format: 2 uppercase letters followed by 6 digits. -/
def isValidBookingRef (s : String) : Prop :=
  s.length = 8
    ∧ (∀ c ∈ s.toList.take 2, c ∈ ascii_uppercase)
    ∧ (∀ c ∈ s.toList.drop 2, c ∈ digitChars)

/-- `_generate_booking_reference`: draw a candidate, and
`while <collision with existing>: redraw`.  `existing` is the set of
`booking_reference` values already in the store
(`Ticket.objects.filter(booking_reference=...).exists()`), `draws` the
stream of random draws the loop consumes. -/
def generate_booking_reference (existing : List String) : List RefDraw → Option String
  | [] => none
  | d :: ds =>
      let candidate := mkBookingReference d
      if candidate ∈ existing then generate_booking_reference existing ds
      else some candidate

theorem mkBookingReference_valid (d : RefDraw) :
    isValidBookingRef (mkBookingReference d) := by
  refine ⟨rfl, ?_, ?_⟩
  · intro c hc
    simp only [mkBookingReference, String.toList, List.take, List.drop,
      List.mem_cons, List.not_mem_nil, or_false] at hc
    rcases hc with rfl | rfl <;> exact List.getElem_mem ..
  · intro c hc
    simp only [mkBookingReference, String.toList, List.take, List.drop,
      List.mem_cons, List.not_mem_nil, or_false] at hc
    rcases hc with rfl | rfl | rfl | rfl | rfl | rfl <;> exact List.getElem_mem ..

theorem generate_booking_reference_spec (existing : List String)
    (draws : List RefDraw) (r : String)
    (h : generate_booking_reference existing draws = some r) :
    r ∉ existing ∧ isValidBookingRef r := by
  induction draws with
  | nil => simp [generate_booking_reference] at h
  | cons d ds ih =>
      by_cases hc : mkBookingReference d ∈ existing
      · rw [generate_booking_reference, if_pos hc] at h
        exact ih h
      · rw [generate_booking_reference, if_neg hc] at h
        obtain rfl : mkBookingReference d = r := by simpa using h
        exact ⟨hc, mkBookingReference_valid d⟩

/-! ## `tickets/serializers.py` — `TicketSerializer.create` -/

/-- A ticket-creation request body as seen by `TicketSerializer.create`
after field validation.  `booking_reference` is in `read_only_fields`, so it
is never part of `validated_data` and the generator always runs.  `status`
has a model default, so DRF marks the serializer field `required=False`
without a serializer-level default: when the request omits it the key is
absent from `validated_data` (here `none`) and the model default `Reserved`
applies at save time.  `expires_at : Option (Option Time)`: the outer
`Option` is key presence in `validated_data`, the inner the nullable value. -/
structure TicketCreateRequest where
  status : Option TicketStatus
  expires_at : Option (Option Time)
  passenger_name : String
deriving DecidableEq, Repr

/-- The failure outcomes of `TicketSerializer.create`.
`capacityExceeded` is the raise
`ValidationError({'trip': "No seats available for this trip"})`,
`invalidTripState` the raise
`ValidationError({'trip': "Cannot book ticket for a ... trip"})`,
`genPending` the modelling artifact for a collision-retry loop that has
exhausted its finite draw stream (the Python loop would still be running). -/
inductive TicketCreateError
  | capacityExceeded
  | invalidTripState
  | genPending
deriving DecidableEq, Repr

namespace TicketSerializer

/-- `TicketSerializer.create(validated_data)`: generate the booking
reference, check seat availability, check the trip is not cancelled or
completed, default `expires_at` when the request explicitly carries
`status='Reserved'` without `expires_at`, create the ticket, then increment
`trip.booked_seats` and save the trip.  Returns the response and the trip
row after the request (unchanged on every error branch, which in the source
raises before `trip.save()`). -/
def create (user_company : Nat) (req : TicketCreateRequest) (trip : Trip)
    (existing : List String) (draws : List RefDraw) (now : Time) :
    Except TicketCreateError Ticket × Trip :=
  match generate_booking_reference existing draws with
  | none => (.error .genPending, trip)
  | some ref =>
      if trip.capacity ≤ trip.booked_seats then
        (.error .capacityExceeded, trip)
      else if trip.status = .Cancelled ∨ trip.status = .Completed then
        (.error .invalidTripState, trip)
      else
        let expires : Option Time :=
          if req.status = some .Reserved ∧ req.expires_at = none then
            some (now + hours24)
          else (req.expires_at.getD none)
        let ticket : Ticket :=
          { company := user_company
            booking_reference := ref
            status := req.status.getD .Reserved
            passenger_name := req.passenger_name
            expires_at := expires
            checked_in_at := none
            checked_in_by := none
            cancellation_reason := none
            cancellation_date := none
            refund_amount := none
            refund_date := none
            refund_reference := none
            booking := none }
        (.ok ticket, { trip with booked_seats := trip.booked_seats + 1 })

end TicketSerializer

/-! ## `tickets/serializers.py` — `TicketSerializer.update` -/

/-- The fields of a ticket-update request body (PATCH/PUT `/tickets/{id}/`)
that `TicketSerializer.update` inspects; `none` means the key is absent
from `validated_data`. -/
structure TicketUpdateRequest where
  status : Option TicketStatus
  cancellation_reason : Option String
deriving DecidableEq, Repr

/-- The failure outcome of `TicketSerializer.update`: the raise
`ValidationError({'cancellation_reason': "Cancellation reason is required"})`. -/
inductive TicketUpdateError
  | cancellationReasonRequired
deriving DecidableEq, Repr

namespace TicketSerializer

/-- `TicketSerializer.update(instance, validated_data)`: require a reason
when moving into `Cancelled` from another status; on that move set
`cancellation_date=now` and decrement the trip's `booked_seats`, floored at
0; on a move into `Checked In` from another status set `checked_in_at=now`;
then `super().update` writes every provided field onto the instance.
Returns the response and the ticket/trip rows after the request. -/
def update (inst : Ticket) (trip : Trip) (req : TicketUpdateRequest)
    (now : Time) : Except TicketUpdateError Unit × Ticket × Trip :=
  if req.status = some .Cancelled ∧ inst.status ≠ .Cancelled ∧
      req.cancellation_reason = none then
    (.error .cancellationReasonRequired, inst, trip)
  else
    let cancelling := req.status = some .Cancelled ∧ inst.status ≠ .Cancelled
    let checkingIn := req.status = some .CheckedIn ∧ inst.status ≠ .CheckedIn
    let trip' :=
      if cancelling then
        { trip with booked_seats := max 0 (trip.booked_seats - 1) }
      else trip
    let ticket' :=
      { inst with
          status := req.status.getD inst.status
          cancellation_reason :=
            match req.cancellation_reason with
            | some r => some r
            | none => inst.cancellation_reason
          cancellation_date :=
            if cancelling then some now else inst.cancellation_date
          checked_in_at :=
            if checkingIn then some now else inst.checked_in_at }
    (.ok (), ticket', trip')

end TicketSerializer

/-! ## `tickets/views.py` — `TicketViewSet` actions -/

/-- The 400 responses of `TicketViewSet.check_in`. -/
inductive CheckInError
  | wrongState
deriving DecidableEq, Repr

/-- The 400 responses of `TicketViewSet.cancel`. -/
inductive TicketCancelError
  | reasonRequired
  | wrongState
deriving DecidableEq, Repr

/-- The 400 responses of `TicketViewSet.refund`. -/
inductive TicketRefundError
  | onlyCancelledRefundable
  | amountRequired
deriving DecidableEq, Repr

namespace TicketViewSet

/-- `TicketViewSet.check_in` (POST `/tickets/{id}/check-in/`), after the
tenant validation of `TicketCheckInSerializer`: guard
`ticket.status in [CONFIRMED, RESERVED]`, then set status to `Checked In`,
`checked_in_at=now`, and `checked_in_by` to the operator's employee when
one was provided. -/
def check_in (ticket : Ticket) (checked_in_by : Option Nat) (now : Time) :
    Except CheckInError Unit × Ticket :=
  if ticket.status = .Confirmed ∨ ticket.status = .Reserved then
    (.ok (),
      { ticket with
          status := .CheckedIn
          checked_in_at := some now
          checked_in_by :=
            match checked_in_by with
            | some e => some e
            | none => ticket.checked_in_by })
  else
    (.error .wrongState, ticket)

/-- `TicketViewSet.cancel` (POST `/tickets/{id}/cancel/`):
`request.data.get('reason', '')` must be truthy (non-empty); guard
`ticket.status in [RESERVED, CONFIRMED]`; set status `Cancelled`, the
reason and `cancellation_date=now`, save the ticket; then decrement the
trip's `booked_seats`, floored at 0 (`max(0, booked_seats - 1)`), and save
the trip. -/
def cancel (ticket : Ticket) (trip : Trip) (reason : String) (now : Time) :
    Except TicketCancelError Unit × Ticket × Trip :=
  if reason = "" then
    (.error .reasonRequired, ticket, trip)
  else if ticket.status = .Reserved ∨ ticket.status = .Confirmed then
    (.ok (),
      { ticket with
          status := .Cancelled
          cancellation_reason := some reason
          cancellation_date := some now },
      { trip with booked_seats := max 0 (trip.booked_seats - 1) })
  else
    (.error .wrongState, ticket, trip)

/-- `TicketViewSet.refund` (POST `/tickets/{id}/refund/`): guard
`ticket.status == CANCELLED`; `request.data.get('refund_amount')` must be
truthy (present and non-zero); set status `Refunded`, record amount, date
and `refund_reference` (defaulted to `''`).  The handler body never
references the ticket's trip, so the trip row is threaded through
unchanged on every branch. -/
def refund (ticket : Ticket) (trip : Trip) (refund_amount : Option Int)
    (refund_reference : Option String) (now : Time) :
    Except TicketRefundError Unit × Ticket × Trip :=
  if ticket.status ≠ .Cancelled then
    (.error .onlyCancelledRefundable, ticket, trip)
  else if refund_amount = none ∨ refund_amount = some 0 then
    (.error .amountRequired, ticket, trip)
  else
    (.ok (),
      { ticket with
          status := .Refunded
          refund_amount := refund_amount
          refund_date := some now
          refund_reference := some (refund_reference.getD "") },
      trip)

/-- The row filter of `TicketViewSet.expired` (GET `/tickets/expired/`):
`Q(status=RESERVED) & Q(expires_at__lt=now)` (a null `expires_at` does not
match an `__lt` lookup). -/
def expiredFilter (ticket : Ticket) (now : Time) : Bool :=
  ticket.status = .Reserved &&
    (match ticket.expires_at with
     | some e => e < now
     | none => false)

end TicketViewSet

/-! ## `trips/views.py` — `TripViewSet` transition actions -/

/-- The 400 responses of the `TripViewSet` transition actions. -/
inductive TripTransitionError
  | wrongState
  | reasonRequired
deriving DecidableEq, Repr

namespace TripViewSet

/-- `TripViewSet.start_trip` (POST `/trips/{id}/start-trip/`): guard
`trip.status == SCHEDULED`; set status `Active` and
`actual_departure=now`, save; then `TripEvent.objects.create` a
`Departure` event at `trip.actual_departure` with description
`"Trip started"` recorded by `trip.driver`. -/
def start_trip (trip : Trip) (events : List TripEvent) (now : Time) :
    Except TripTransitionError Unit × Trip × List TripEvent :=
  if trip.status ≠ .Scheduled then
    (.error .wrongState, trip, events)
  else
    let trip' := { trip with status := .Active, actual_departure := some now }
    (.ok (), trip',
      events ++ [{ company := trip.company
                   event_type := .Departure
                   timestamp := now
                   description := "Trip started"
                   recorded_by := some trip.driver }])

/-- `TripViewSet.complete_trip` (POST `/trips/{id}/complete-trip/`): guard
`trip.status == ACTIVE`; set status `Completed` and `actual_arrival=now`,
save; then create an `Arrival` event at `trip.actual_arrival` with
description `"Trip completed"` recorded by `trip.driver`. -/
def complete_trip (trip : Trip) (events : List TripEvent) (now : Time) :
    Except TripTransitionError Unit × Trip × List TripEvent :=
  if trip.status ≠ .Active then
    (.error .wrongState, trip, events)
  else
    let trip' := { trip with status := .Completed, actual_arrival := some now }
    (.ok (), trip',
      events ++ [{ company := trip.company
                   event_type := .Arrival
                   timestamp := now
                   description := "Trip completed"
                   recorded_by := some trip.driver }])

/-- `TripViewSet.cancel_trip` (POST `/trips/{id}/cancel-trip/`): guard
`trip.status in [SCHEDULED, DELAYED]`, then require a truthy reason, then
set status `Cancelled` and record the reason.  No event is created. -/
def cancel_trip (trip : Trip) (events : List TripEvent) (reason : String) :
    Except TripTransitionError Unit × Trip × List TripEvent :=
  if ¬(trip.status = .Scheduled ∨ trip.status = .Delayed) then
    (.error .wrongState, trip, events)
  else if reason = "" then
    (.error .reasonRequired, trip, events)
  else
    (.ok (),
      { trip with status := .Cancelled, cancellation_reason := some reason },
      events)

/-- `TripViewSet.delay_trip` (POST `/trips/{id}/delay-trip/`): guard
`trip.status in [SCHEDULED, ACTIVE]`, then require a truthy reason, then
set status `Delayed`, record the reason and create a `Delay` event. -/
def delay_trip (trip : Trip) (events : List TripEvent) (reason : String)
    (now : Time) : Except TripTransitionError Unit × Trip × List TripEvent :=
  if ¬(trip.status = .Scheduled ∨ trip.status = .Active) then
    (.error .wrongState, trip, events)
  else if reason = "" then
    (.error .reasonRequired, trip, events)
  else
    (.ok (),
      { trip with status := .Delayed, delay_reason := some reason },
      events ++ [{ company := trip.company
                   event_type := .Delay
                   timestamp := now
                   description := reason
                   recorded_by := some trip.driver }])

end TripViewSet

/-! ## `trips/serializers.py` — `TripSerializer.validate` -/

/-- The referenced rows and scalar fields of a trip-creation request as
`TripSerializer.validate(data)` sees them.  Dates and times are combined
into a single timestamp per endpoint of the journey
(`datetime.combine(date, time)`), so `departure`/`arrival` here stand for
the combined values the dead comparison would compute. -/
structure TripCreateData where
  route_company : Nat
  bus_company : Nat
  bus_status : BusStatus
  driver_company : Nat
  driver_role : EmployeeRole
  conductor : Option (Nat × EmployeeRole)
  capacity : Option Int
  departure : Time
  arrival : Time
deriving DecidableEq, Repr

/-- Outcomes of `TripSerializer.validate`.  `fieldError` is a DRF
`ValidationError` with a `{field: message}` dict (HTTP 400, field-scoped);
`nameError` is an unhandled Python `NameError` escaping the handler
(HTTP 500): `trips/serializers.py` calls `datetime.combine` on line 92 but,
unlike `trips/views.py`, never imports `datetime`, so every request that
survives the earlier checks raises `NameError: name 'datetime' is not
defined` before the departure/arrival comparison, whose non-field
`ValidationError` on line 95 is dead code. -/
inductive TripValidateResult
  | ok
  | fieldError (field : String)
  | nameError (missing : String)
deriving DecidableEq, Repr

namespace TripSerializer

/-- `TripSerializer.validate(data)`: tenant checks for route, bus, driver
and (if set) conductor, then bus must be `ACTIVE`, driver role `DRIVER`,
conductor role `CONDUCTOR`, `capacity > 0` (with `data.get('capacity', 0)`
treating an absent key as 0), and finally the `datetime.combine` calls that
raise `NameError` because the module has no binding for `datetime`. -/
def validate (user_company : Nat) (data : TripCreateData) : TripValidateResult :=
  if data.route_company ≠ user_company then .fieldError "route"
  else if data.bus_company ≠ user_company then .fieldError "bus"
  else if data.driver_company ≠ user_company then .fieldError "driver"
  else if data.conductor.any (fun p => p.1 ≠ user_company) then
    .fieldError "conductor"
  else if data.bus_status ≠ .Active then .fieldError "bus"
  else if data.driver_role ≠ .Driver then .fieldError "driver"
  else if data.conductor.any (fun p => p.2 ≠ EmployeeRole.Conductor) then
    .fieldError "conductor"
  else if (data.capacity.getD 0) ≤ 0 then .fieldError "capacity"
  else .nameError "datetime"

end TripSerializer

/-! ## `tickets/views.py` — `DiscountViewSet.validate_code` -/

/-- The responses of `DiscountViewSet.validate_code`
(POST `/discounts/validate_code/`): `ok` is HTTP 200 with the discount,
`badRequest` HTTP 400 (missing code, or
`"Discount code has reached its usage limit"`), `notFound` HTTP 404
(`Discount.DoesNotExist` from `.get()`), `serverError` the unhandled
`MultipleObjectsReturned` (impossible while `code` is globally unique). -/
inductive ValidateCodeResult
  | ok (d : Discount)
  | badRequest (detail : String)
  | notFound
  | serverError
deriving DecidableEq, Repr

namespace DiscountViewSet

/-- The queryset filter of `validate_code`:
`get_queryset()` restricts to the user's company, then
`filter(code=code, is_active=True, start_date__lte=now)` and
`filter(Q(end_date__isnull=True) | Q(end_date__gte=now))`. -/
def codeFilter (company : Nat) (code : String) (now : Time) (d : Discount) :
    Bool :=
  d.company = company && d.code = code && d.is_active &&
    d.start_date ≤ now &&
    (match d.end_date with
     | none => true
     | some e => now ≤ e)

/-- `DiscountViewSet.validate_code`: `request.data.get('code')` must be
truthy; `.get()` on the filtered queryset (404 on no match); then
`if discount.usage_limit and discount.usage_count >= discount.usage_limit`
— a `None` or `0` limit is falsy and skips the check — answer 400,
otherwise 200 with the discount.  `usage_count` is never written. -/
def validate_code (store : List Discount) (company : Nat)
    (code : Option String) (now : Time) : ValidateCodeResult :=
  match code with
  | none => .badRequest "Discount code is required"
  | some c =>
      if c = "" then .badRequest "Discount code is required"
      else
        match store.filter (codeFilter company c now) with
        | [] => .notFound
        | [d] =>
            if d.usage_limit.any (fun l => l ≠ 0 && d.usage_count ≥ l) then
              .badRequest "Discount code has reached its usage limit"
            else .ok d
        | _ :: _ :: _ => .serverError

end DiscountViewSet

/-! ## `tickets/serializers.py` — `DiscountSerializer` -/

/-- The fields of a discount create/update request body that
`DiscountSerializer.validate(data)` inspects, plus the stored `value`;
`none` means the key is absent from `data`. -/
structure DiscountRequest where
  type : Option DiscountType
  value : Option Int
  start_date : Option Time
  end_date : Option Time
deriving DecidableEq, Repr

/-- The raises of `DiscountSerializer.validate`. -/
inductive DiscountValidateError
  | endBeforeStart
  | percentOver100
deriving DecidableEq, Repr

namespace DiscountSerializer

/-- `DiscountSerializer.validate(data)`: reject `end_date <= start_date`
when both are present; reject `data.get('type') == 'Percentage'` with
`data.get('value', 0) > 100`.  A request that omits `type` never enters the
percentage branch, whatever its value. -/
def validate (req : DiscountRequest) : Except DiscountValidateError Unit :=
  match req.start_date, req.end_date with
  | some s, some e =>
      if e ≤ s then .error .endBeforeStart
      else
        if req.type = some .Percentage ∧ (req.value.getD 0) > 100 then
          .error .percentOver100
        else .ok ()
  | _, _ =>
      if req.type = some .Percentage ∧ (req.value.getD 0) > 100 then
        .error .percentOver100
      else .ok ()

/-- `DiscountSerializer.create` after `validate`: the stored row applies the
model defaults of `tickets/models.py` — `type` defaults to
`DiscountType.PERCENTAGE`, `usage_count` to 0, `is_active` to `True`. -/
def create (user_company : Nat) (code : String) (req : DiscountRequest) :
    Except DiscountValidateError Discount :=
  match validate req with
  | .error e => .error e
  | .ok () =>
      .ok { company := user_company
            code := code
            type := req.type.getD .Percentage
            value := req.value.getD 0
            start_date := req.start_date.getD 0
            end_date := req.end_date
            usage_limit := none
            usage_count := 0
            is_active := true }

end DiscountSerializer

/-! ## `tickets/serializers.py` — `BookingSerializer.create` -/

/-- The failure outcomes of `BookingSerializer.create`:
`ticketWrongCompany` is the raise
`ValidationError(f"Ticket ... does not belong to your company")` inside the
association loop, `genPending` the modelling artifact for an unterminated
collision-retry loop. -/
inductive BookingCreateError
  | ticketWrongCompany (ref : String)
  | genPending
deriving DecidableEq, Repr

namespace BookingSerializer

/-- The ticket-association loop of `BookingSerializer.create`: for each
ticket, raise if it belongs to another company, otherwise set
`ticket.booking = booking` and save. -/
def assignTickets (booking : Booking) :
    List Ticket → Except BookingCreateError (List Ticket)
  | [] => .ok []
  | t :: ts =>
      if t.company ≠ booking.company then
        .error (.ticketWrongCompany t.booking_reference)
      else
        match assignTickets booking ts with
        | .error e => .error e
        | .ok ts' => .ok ({ t with booking := some booking.id } :: ts')

/-- The body of `BookingSerializer.create` (before transaction semantics):
pop `tickets`, set the company, generate the booking reference, create the
booking, then run the association loop. -/
def createBody (user_company : Nat) (newId : Nat) (tickets_data : List Ticket)
    (existing : List String) (draws : List RefDraw) :
    Except BookingCreateError (Booking × List Ticket) :=
  match generate_booking_reference existing draws with
  | none => .error .genPending
  | some ref =>
      let booking : Booking :=
        { company := user_company, id := newId, booking_reference := ref }
      match assignTickets booking tickets_data with
      | .error e => .error e
      | .ok ts => .ok (booking, ts)

/-- The visible store for a booking-creation request: the existing bookings
and the ticket rows listed in the request's `tickets` field. -/
structure Store where
  bookings : List Booking
  tickets_data : List Ticket
deriving DecidableEq, Repr

/-- `BookingSerializer.create` under its `@transaction.atomic` decorator:
when the body raises, the whole transaction rolls back and the store is as
before the request — the booking row and every `ticket.save()` already
executed are undone. -/
def create (user_company : Nat) (newId : Nat) (s : Store)
    (existing : List String) (draws : List RefDraw) :
    Except BookingCreateError Booking × Store :=
  match createBody user_company newId s.tickets_data existing draws with
  | .error e => (.error e, s)
  | .ok (b, ts) => (.ok b, { bookings := s.bookings ++ [b], tickets_data := ts })

end BookingSerializer

/-! ## Claims -/

/-- C1: for every trip, `0 ≤ booked_seats ≤ capacity` is preserved by every
ticket issuance (`TicketSerializer.create`, guarded by the capacity check
before incrementing) and every ticket cancellation (`TicketViewSet.cancel`
and the cancellation path of `TicketSerializer.update`, whose decrements
are floored at 0). -/
theorem C1_capacity_ledger_invariant (trip : Trip)
    (hlo : 0 ≤ trip.booked_seats) (hhi : trip.booked_seats ≤ trip.capacity)
    (user_company : Nat) (req : TicketCreateRequest) (existing : List String)
    (draws : List RefDraw) (now : Time) (ticket : Ticket)
    (ureq : TicketUpdateRequest) (reason : String) :
    (0 ≤ (TicketSerializer.create user_company req trip existing draws now).2.booked_seats
      ∧ (TicketSerializer.create user_company req trip existing draws now).2.booked_seats
          ≤ (TicketSerializer.create user_company req trip existing draws now).2.capacity)
    ∧ (0 ≤ (TicketViewSet.cancel ticket trip reason now).2.2.booked_seats
      ∧ (TicketViewSet.cancel ticket trip reason now).2.2.booked_seats
          ≤ (TicketViewSet.cancel ticket trip reason now).2.2.capacity)
    ∧ (0 ≤ (TicketSerializer.update ticket trip ureq now).2.2.booked_seats
      ∧ (TicketSerializer.update ticket trip ureq now).2.2.booked_seats
          ≤ (TicketSerializer.update ticket trip ureq now).2.2.capacity) := by
  refine ⟨?_, ?_, ?_⟩
  · simp only [TicketSerializer.create]
    cases hgen : generate_booking_reference existing draws with
    | none => exact ⟨hlo, hhi⟩
    | some r => split_ifs <;> refine ⟨?_, ?_⟩ <;> simp <;> omega
  · simp only [TicketViewSet.cancel]
    split_ifs <;> refine ⟨?_, ?_⟩ <;> simp <;> omega
  · simp only [TicketSerializer.update]
    split_ifs <;> refine ⟨?_, ?_⟩ <;> simp <;> omega

/-- Witness for C1 at a concrete trip with 1 of 2 seats booked. -/
theorem C1_capacity_ledger_invariant_witness :
    (0 : Int) ≤ 1 ∧ (1 : Int) ≤ 2 ∧
    ((0 ≤ (TicketSerializer.create 7
            { status := none, expires_at := none, passenger_name := "p" }
            { company := 7, driver := 3, status := .Scheduled, capacity := 2,
              booked_seats := 1, actual_departure := none,
              actual_arrival := none, delay_reason := none,
              cancellation_reason := none } [] [⟨0, 0, 0, 0, 0, 0, 0, 0⟩]
            0).2.booked_seats
      ∧ (TicketSerializer.create 7
            { status := none, expires_at := none, passenger_name := "p" }
            { company := 7, driver := 3, status := .Scheduled, capacity := 2,
              booked_seats := 1, actual_departure := none,
              actual_arrival := none, delay_reason := none,
              cancellation_reason := none } [] [⟨0, 0, 0, 0, 0, 0, 0, 0⟩]
            0).2.booked_seats
          ≤ (TicketSerializer.create 7
            { status := none, expires_at := none, passenger_name := "p" }
            { company := 7, driver := 3, status := .Scheduled, capacity := 2,
              booked_seats := 1, actual_departure := none,
              actual_arrival := none, delay_reason := none,
              cancellation_reason := none } [] [⟨0, 0, 0, 0, 0, 0, 0, 0⟩]
            0).2.capacity)
    ∧ (0 ≤ (TicketViewSet.cancel
            { company := 7, booking_reference := "AA000000",
              status := .Reserved, passenger_name := "p", expires_at := none,
              checked_in_at := none, checked_in_by := none,
              cancellation_reason := none, cancellation_date := none,
              refund_amount := none, refund_date := none,
              refund_reference := none, booking := none }
            { company := 7, driver := 3, status := .Scheduled, capacity := 2,
              booked_seats := 1, actual_departure := none,
              actual_arrival := none, delay_reason := none,
              cancellation_reason := none } "changed plans" 0).2.2.booked_seats
      ∧ (TicketViewSet.cancel
            { company := 7, booking_reference := "AA000000",
              status := .Reserved, passenger_name := "p", expires_at := none,
              checked_in_at := none, checked_in_by := none,
              cancellation_reason := none, cancellation_date := none,
              refund_amount := none, refund_date := none,
              refund_reference := none, booking := none }
            { company := 7, driver := 3, status := .Scheduled, capacity := 2,
              booked_seats := 1, actual_departure := none,
              actual_arrival := none, delay_reason := none,
              cancellation_reason := none } "changed plans" 0).2.2.booked_seats
          ≤ (TicketViewSet.cancel
            { company := 7, booking_reference := "AA000000",
              status := .Reserved, passenger_name := "p", expires_at := none,
              checked_in_at := none, checked_in_by := none,
              cancellation_reason := none, cancellation_date := none,
              refund_amount := none, refund_date := none,
              refund_reference := none, booking := none }
            { company := 7, driver := 3, status := .Scheduled, capacity := 2,
              booked_seats := 1, actual_departure := none,
              actual_arrival := none, delay_reason := none,
              cancellation_reason := none } "changed plans" 0).2.2.capacity)
    ∧ (0 ≤ (TicketSerializer.update
            { company := 7, booking_reference := "AA000000",
              status := .Reserved, passenger_name := "p", expires_at := none,
              checked_in_at := none, checked_in_by := none,
              cancellation_reason := none, cancellation_date := none,
              refund_amount := none, refund_date := none,
              refund_reference := none, booking := none }
            { company := 7, driver := 3, status := .Scheduled, capacity := 2,
              booked_seats := 1, actual_departure := none,
              actual_arrival := none, delay_reason := none,
              cancellation_reason := none }
            { status := some .Cancelled, cancellation_reason := some "r" }
            0).2.2.booked_seats
      ∧ (TicketSerializer.update
            { company := 7, booking_reference := "AA000000",
              status := .Reserved, passenger_name := "p", expires_at := none,
              checked_in_at := none, checked_in_by := none,
              cancellation_reason := none, cancellation_date := none,
              refund_amount := none, refund_date := none,
              refund_reference := none, booking := none }
            { company := 7, driver := 3, status := .Scheduled, capacity := 2,
              booked_seats := 1, actual_departure := none,
              actual_arrival := none, delay_reason := none,
              cancellation_reason := none }
            { status := some .Cancelled, cancellation_reason := some "r" }
            0).2.2.booked_seats
          ≤ (TicketSerializer.update
            { company := 7, booking_reference := "AA000000",
              status := .Reserved, passenger_name := "p", expires_at := none,
              checked_in_at := none, checked_in_by := none,
              cancellation_reason := none, cancellation_date := none,
              refund_amount := none, refund_date := none,
              refund_reference := none, booking := none }
            { company := 7, driver := 3, status := .Scheduled, capacity := 2,
              booked_seats := 1, actual_departure := none,
              actual_arrival := none, delay_reason := none,
              cancellation_reason := none }
            { status := some .Cancelled, cancellation_reason := some "r" }
            0).2.2.capacity)) :=
  ⟨by norm_num, by norm_num,
    C1_capacity_ledger_invariant
      { company := 7, driver := 3, status := .Scheduled, capacity := 2,
        booked_seats := 1, actual_departure := none, actual_arrival := none,
        delay_reason := none, cancellation_reason := none }
      (by norm_num) (by norm_num) 7
      { status := none, expires_at := none, passenger_name := "p" }
      [] [⟨0, 0, 0, 0, 0, 0, 0, 0⟩] 0
      { company := 7, booking_reference := "AA000000", status := .Reserved,
        passenger_name := "p", expires_at := none, checked_in_at := none,
        checked_in_by := none, cancellation_reason := none,
        cancellation_date := none, refund_amount := none, refund_date := none,
        refund_reference := none, booking := none }
      { status := some .Cancelled, cancellation_reason := some "r" }
      "changed plans"⟩

/-- C2 counterexample: on a trip with free seats, a creation request that
provides no explicit status yields a ticket whose `expires_at` is unset —
not `now + 24h` as the claim demands — and a request that explicitly
provides status `Confirmed` yields a ticket whose status is `Confirmed`,
not `Reserved`. -/
theorem C2_counterexample :
    ((TicketSerializer.create 1
        { status := none, expires_at := none, passenger_name := "p" }
        { company := 1, driver := 2, status := .Scheduled, capacity := 10,
          booked_seats := 0, actual_departure := none, actual_arrival := none,
          delay_reason := none, cancellation_reason := none }
        [] [⟨0, 0, 0, 0, 0, 0, 0, 0⟩] 0).1.toOption.map Ticket.expires_at
        = some none
      ∧ some (none : Option Time) ≠ some (some (0 + hours24)))
    ∧ ((TicketSerializer.create 1
        { status := some .Confirmed, expires_at := none, passenger_name := "p" }
        { company := 1, driver := 2, status := .Scheduled, capacity := 10,
          booked_seats := 0, actual_departure := none, actual_arrival := none,
          delay_reason := none, cancellation_reason := none }
        [] [⟨0, 0, 0, 0, 0, 0, 0, 0⟩] 0).1.toOption.map Ticket.status
        = some .Confirmed
      ∧ TicketStatus.Confirmed ≠ .Reserved) :=
  ⟨⟨rfl, by decide⟩, rfl, by decide⟩

/-- C2 (amended): on a terminating run of the reference generator, Issue
fails with `CapacityExceeded` whenever `booked_seats ≥ capacity`, leaving
the trip unchanged; fails with `InvalidTripState` whenever a seat is free
but the trip is Cancelled or Completed, leaving the trip unchanged; and on
success creates the ticket with the requested status (`Reserved` when none
is provided), with `expires_at = now + 24h` exactly when the request
explicitly provides status `Reserved` without an `expires_at`, increments
`booked_seats` by exactly 1, and assigns a booking reference of 2 uppercase
letters plus 6 digits that differs from every existing reference. -/
theorem C2_issue_contract (user_company : Nat) (req : TicketCreateRequest)
    (trip : Trip) (existing : List String) (draws : List RefDraw) (now : Time)
    (r : String) (hgen : generate_booking_reference existing draws = some r) :
    (trip.capacity ≤ trip.booked_seats →
        TicketSerializer.create user_company req trip existing draws now =
          (.error .capacityExceeded, trip))
    ∧ (trip.booked_seats < trip.capacity →
        (trip.status = .Cancelled ∨ trip.status = .Completed) →
        TicketSerializer.create user_company req trip existing draws now =
          (.error .invalidTripState, trip))
    ∧ (trip.booked_seats < trip.capacity →
        ¬(trip.status = .Cancelled ∨ trip.status = .Completed) →
        TicketSerializer.create user_company req trip existing draws now =
          (.ok { company := user_company
                 booking_reference := r
                 status := req.status.getD .Reserved
                 passenger_name := req.passenger_name
                 expires_at :=
                   if req.status = some .Reserved ∧ req.expires_at = none then
                     some (now + hours24)
                   else req.expires_at.getD none
                 checked_in_at := none
                 checked_in_by := none
                 cancellation_reason := none
                 cancellation_date := none
                 refund_amount := none
                 refund_date := none
                 refund_reference := none
                 booking := none },
           { trip with booked_seats := trip.booked_seats + 1 })
        ∧ r ∉ existing ∧ isValidBookingRef r) := by
  have hfresh := generate_booking_reference_spec existing draws r hgen
  refine ⟨?_, ?_, ?_⟩ <;> intros <;>
    simp only [TicketSerializer.create, hgen] <;> split_ifs <;>
    first
      | rfl
      | omega
      | simp_all

/-- Witness for C2 at a concrete open trip and an explicit Reserved request
without `expires_at`. -/
theorem C2_issue_contract_witness :
    TicketSerializer.create 1
        { status := some .Reserved, expires_at := none, passenger_name := "p" }
        { company := 1, driver := 2, status := .Scheduled, capacity := 2,
          booked_seats := 0, actual_departure := none, actual_arrival := none,
          delay_reason := none, cancellation_reason := none }
        [] [⟨0, 0, 0, 0, 0, 0, 0, 0⟩] 5 =
      (.ok { company := 1
             booking_reference := "AA000000"
             status := .Reserved
             passenger_name := "p"
             expires_at := some (5 + hours24)
             checked_in_at := none
             checked_in_by := none
             cancellation_reason := none
             cancellation_date := none
             refund_amount := none
             refund_date := none
             refund_reference := none
             booking := none },
       { company := 1, driver := 2, status := .Scheduled, capacity := 2,
         booked_seats := 1, actual_departure := none, actual_arrival := none,
         delay_reason := none, cancellation_reason := none })
    ∧ "AA000000" ∉ ([] : List String) ∧ isValidBookingRef "AA000000" :=
  (C2_issue_contract 1
      { status := some .Reserved, expires_at := none, passenger_name := "p" }
      { company := 1, driver := 2, status := .Scheduled, capacity := 2,
        booked_seats := 0, actual_departure := none, actual_arrival := none,
        delay_reason := none, cancellation_reason := none }
      [] [⟨0, 0, 0, 0, 0, 0, 0, 0⟩] 5 "AA000000" rfl).2.2
    (by norm_num) (by decide)

/-- C3 counterexample: the generic ticket-update endpoint accepts a status
change from the terminal `Used` back to `Reserved` — a transition outside
the §4.1 table — succeeding and changing the stored status instead of
failing with `InvalidStateTransition`. -/
theorem C3_counterexample :
    TicketSerializer.update
        { company := 1, booking_reference := "AA000000", status := .Used,
          passenger_name := "p", expires_at := none, checked_in_at := none,
          checked_in_by := none, cancellation_reason := none,
          cancellation_date := none, refund_amount := none,
          refund_date := none, refund_reference := none, booking := none }
        { company := 1, driver := 2, status := .Completed, capacity := 10,
          booked_seats := 5, actual_departure := none, actual_arrival := none,
          delay_reason := none, cancellation_reason := none }
        { status := some .Reserved, cancellation_reason := none } 0 =
      (.ok (),
        { company := 1, booking_reference := "AA000000", status := .Reserved,
          passenger_name := "p", expires_at := none, checked_in_at := none,
          checked_in_by := none, cancellation_reason := none,
          cancellation_date := none, refund_amount := none,
          refund_date := none, refund_reference := none, booking := none },
        { company := 1, driver := 2, status := .Completed, capacity := 10,
          booked_seats := 5, actual_departure := none, actual_arrival := none,
          delay_reason := none, cancellation_reason := none })
    ∧ TicketStatus.Used ≠ .Reserved :=
  ⟨rfl, by decide⟩

/-- C3 (amended): the dedicated transition endpoints enforce their §4.1
guards — check-in succeeds only from Reserved/Confirmed (to CheckedIn),
cancel only from Reserved/Confirmed (to Cancelled), refund only from
Cancelled (to Refunded) — and every guarded failure leaves the ticket
unchanged; the generic update endpoint, by contrast, does not enforce the
transition table (see the counterexample). -/
theorem C3_dedicated_transition_guards (ticket : Ticket) (trip : Trip)
    (op : Option Nat) (reason : String) (amount : Option Int)
    (rref : Option String) (now : Time) :
    (¬(ticket.status = .Confirmed ∨ ticket.status = .Reserved) →
        TicketViewSet.check_in ticket op now = (.error .wrongState, ticket))
    ∧ ((ticket.status = .Confirmed ∨ ticket.status = .Reserved) →
        (TicketViewSet.check_in ticket op now).1 = .ok ()
        ∧ (TicketViewSet.check_in ticket op now).2.status = .CheckedIn)
    ∧ (reason ≠ "" → ¬(ticket.status = .Reserved ∨ ticket.status = .Confirmed) →
        TicketViewSet.cancel ticket trip reason now =
          (.error .wrongState, ticket, trip))
    ∧ (reason ≠ "" → (ticket.status = .Reserved ∨ ticket.status = .Confirmed) →
        (TicketViewSet.cancel ticket trip reason now).1 = .ok ()
        ∧ (TicketViewSet.cancel ticket trip reason now).2.1.status = .Cancelled)
    ∧ (ticket.status ≠ .Cancelled →
        TicketViewSet.refund ticket trip amount rref now =
          (.error .onlyCancelledRefundable, ticket, trip))
    ∧ (ticket.status = .Cancelled → ¬(amount = none ∨ amount = some 0) →
        (TicketViewSet.refund ticket trip amount rref now).1 = .ok ()
        ∧ (TicketViewSet.refund ticket trip amount rref now).2.1.status
            = .Refunded) := by
  refine ⟨?_, ?_, ?_, ?_, ?_, ?_⟩ <;> intros <;>
    simp only [TicketViewSet.check_in, TicketViewSet.cancel,
      TicketViewSet.refund] <;>
    split_ifs <;> simp_all

/-- Witness for C3 at a concrete Reserved ticket being checked in. -/
theorem C3_dedicated_transition_guards_witness :
    (TicketViewSet.check_in
        { company := 1, booking_reference := "AA000000", status := .Reserved,
          passenger_name := "p", expires_at := none, checked_in_at := none,
          checked_in_by := none, cancellation_reason := none,
          cancellation_date := none, refund_amount := none,
          refund_date := none, refund_reference := none, booking := none }
        none 3).1 = .ok ()
    ∧ (TicketViewSet.check_in
        { company := 1, booking_reference := "AA000000", status := .Reserved,
          passenger_name := "p", expires_at := none, checked_in_at := none,
          checked_in_by := none, cancellation_reason := none,
          cancellation_date := none, refund_amount := none,
          refund_date := none, refund_reference := none, booking := none }
        none 3).2.status = .CheckedIn :=
  (C3_dedicated_transition_guards
      { company := 1, booking_reference := "AA000000", status := .Reserved,
        passenger_name := "p", expires_at := none, checked_in_at := none,
        checked_in_by := none, cancellation_reason := none,
        cancellation_date := none, refund_amount := none, refund_date := none,
        refund_reference := none, booking := none }
      { company := 1, driver := 2, status := .Scheduled, capacity := 10,
        booked_seats := 5, actual_departure := none, actual_arrival := none,
        delay_reason := none, cancellation_reason := none }
      none "r" none none 3).2.1 (Or.inr rfl)

/-- C4: cancelling a Reserved or Confirmed ticket with a non-empty reason
sets status Cancelled with `cancellation_date = now` and decrements the
trip's `booked_seats` by exactly 1 floored at 0; cancelling again fails
(for any reason, empty or not) without touching ticket or trip; refunding
the cancelled ticket never changes the trip row; and an empty reason is
rejected outright. -/
theorem C4_cancel_decrements_once (ticket : Ticket) (trip : Trip)
    (reason : String) (now : Time)
    (hstat : ticket.status = .Reserved ∨ ticket.status = .Confirmed)
    (hreason : reason ≠ "") :
    TicketViewSet.cancel ticket trip reason now =
      (.ok (),
        { ticket with
            status := .Cancelled
            cancellation_reason := some reason
            cancellation_date := some now },
        { trip with booked_seats := max 0 (trip.booked_seats - 1) })
    ∧ (∀ r2 n2,
        TicketViewSet.cancel
          { ticket with
              status := .Cancelled
              cancellation_reason := some reason
              cancellation_date := some now }
          { trip with booked_seats := max 0 (trip.booked_seats - 1) } r2 n2 =
          (if r2 = "" then
            (.error .reasonRequired,
              { ticket with
                  status := .Cancelled
                  cancellation_reason := some reason
                  cancellation_date := some now },
              { trip with booked_seats := max 0 (trip.booked_seats - 1) })
          else
            (.error .wrongState,
              { ticket with
                  status := .Cancelled
                  cancellation_reason := some reason
                  cancellation_date := some now },
              { trip with booked_seats := max 0 (trip.booked_seats - 1) })))
    ∧ (∀ amt rf n2,
        (TicketViewSet.refund
          { ticket with
              status := .Cancelled
              cancellation_reason := some reason
              cancellation_date := some now }
          { trip with booked_seats := max 0 (trip.booked_seats - 1) }
          amt rf n2).2.2 =
          { trip with booked_seats := max 0 (trip.booked_seats - 1) })
    ∧ TicketViewSet.cancel ticket trip "" now =
        (.error .reasonRequired, ticket, trip) := by
  refine ⟨?_, ?_, ?_, ?_⟩
  · simp only [TicketViewSet.cancel]
    split_ifs <;> simp_all
  · intro r2 n2
    simp only [TicketViewSet.cancel]
    split_ifs <;> simp_all
  · intro amt rf n2
    simp only [TicketViewSet.refund]
    split_ifs <;> simp_all
  · simp [TicketViewSet.cancel]

/-- Witness for C4 at a concrete Reserved ticket on a trip with 5 booked
seats. -/
theorem C4_cancel_decrements_once_witness :
    ((TicketStatus.Reserved = .Reserved ∨ TicketStatus.Reserved = .Confirmed)
      ∧ ("changed plans" : String) ≠ "")
    ∧ (TicketViewSet.cancel
        { company := 1, booking_reference := "AA000000", status := .Reserved,
          passenger_name := "p", expires_at := none, checked_in_at := none,
          checked_in_by := none, cancellation_reason := none,
          cancellation_date := none, refund_amount := none,
          refund_date := none, refund_reference := none, booking := none }
        { company := 1, driver := 2, status := .Scheduled, capacity := 10,
          booked_seats := 5, actual_departure := none, actual_arrival := none,
          delay_reason := none, cancellation_reason := none }
        "changed plans" 9).2.2.booked_seats = 4 := by
  refine ⟨⟨Or.inl rfl, by decide⟩, ?_⟩
  have h :=
    (C4_cancel_decrements_once
      { company := 1, booking_reference := "AA000000", status := .Reserved,
        passenger_name := "p", expires_at := none, checked_in_at := none,
        checked_in_by := none, cancellation_reason := none,
        cancellation_date := none, refund_amount := none, refund_date := none,
        refund_reference := none, booking := none }
      { company := 1, driver := 2, status := .Scheduled, capacity := 10,
        booked_seats := 5, actual_departure := none, actual_arrival := none,
        delay_reason := none, cancellation_reason := none }
      "changed plans" 9 (Or.inl rfl) (by decide)).1
  rw [h]
  decide

/-- C5: the intent of the spec — trip creation validates driver role, bus
status, capacity and departure-before-arrival, rejecting failures with
field-scoped validation errors — is broken by the code: `datetime` is not
imported in `trips/serializers.py`, so every creation request that
survives the tenant/role/bus/capacity checks raises an unhandled
`NameError` at the `datetime.combine` call (an unstructured 500), and the
departure-before-arrival comparison is dead code.  Evaluated here at a
request whose only rule violation is `departure ≥ arrival`. -/
theorem C5_trip_validate_name_error :
    TripSerializer.validate 1
        { route_company := 1, bus_company := 1, bus_status := .Active,
          driver_company := 1, driver_role := .Driver, conductor := none,
          capacity := some 50, departure := 100, arrival := 50 }
      = .nameError "datetime"
    ∧ TripSerializer.validate 1
        { route_company := 1, bus_company := 1, bus_status := .Active,
          driver_company := 1, driver_role := .Driver,
          conductor := some (1, .Conductor), capacity := some 50,
          departure := 0, arrival := 100 }
      = .nameError "datetime" := by
  constructor <;> rfl

/-- C6: Start succeeds exactly from Scheduled, setting status Active and
`actual_departure = now` and appending exactly one Departure TripEvent
recorded by the trip's driver; Complete succeeds exactly from Active,
setting status Completed and `actual_arrival = now` and appending exactly
one Arrival TripEvent; every guarded failure (Start on a Completed trip in
particular) changes neither the trip nor the event log. -/
theorem C6_trip_transitions (trip : Trip) (events : List TripEvent)
    (now : Time) :
    (trip.status = .Scheduled →
        TripViewSet.start_trip trip events now =
          (.ok (),
            { trip with status := .Active, actual_departure := some now },
            events ++ [{ company := trip.company, event_type := .Departure,
                         timestamp := now, description := "Trip started",
                         recorded_by := some trip.driver }]))
    ∧ (trip.status ≠ .Scheduled →
        TripViewSet.start_trip trip events now =
          (.error .wrongState, trip, events))
    ∧ (trip.status = .Active →
        TripViewSet.complete_trip trip events now =
          (.ok (),
            { trip with status := .Completed, actual_arrival := some now },
            events ++ [{ company := trip.company, event_type := .Arrival,
                         timestamp := now, description := "Trip completed",
                         recorded_by := some trip.driver }]))
    ∧ (trip.status ≠ .Active →
        TripViewSet.complete_trip trip events now =
          (.error .wrongState, trip, events)) := by
  refine ⟨?_, ?_, ?_, ?_⟩ <;> intro h <;>
    simp only [TripViewSet.start_trip, TripViewSet.complete_trip] <;>
    split_ifs <;> simp_all

/-- Witness for C6: a Scheduled trip starts, the started trip completes,
and starting the completed trip fails without changes. -/
theorem C6_trip_transitions_witness :
    (TripViewSet.start_trip
        { company := 1, driver := 2, status := .Scheduled, capacity := 10,
          booked_seats := 0, actual_departure := none, actual_arrival := none,
          delay_reason := none, cancellation_reason := none } [] 7).2.1.status
      = .Active
    ∧ TripViewSet.start_trip
        { company := 1, driver := 2, status := .Completed, capacity := 10,
          booked_seats := 0, actual_departure := none, actual_arrival := none,
          delay_reason := none, cancellation_reason := none } [] 7 =
        (.error .wrongState,
          { company := 1, driver := 2, status := .Completed, capacity := 10,
            booked_seats := 0, actual_departure := none,
            actual_arrival := none, delay_reason := none,
            cancellation_reason := none }, []) := by
  constructor
  · have h :=
      (C6_trip_transitions
        { company := 1, driver := 2, status := .Scheduled, capacity := 10,
          booked_seats := 0, actual_departure := none, actual_arrival := none,
          delay_reason := none, cancellation_reason := none } [] 7).1 rfl
    rw [h]
  · exact
      (C6_trip_transitions
        { company := 1, driver := 2, status := .Completed, capacity := 10,
          booked_seats := 0, actual_departure := none, actual_arrival := none,
          delay_reason := none, cancellation_reason := none } [] 7).2.1
        (by decide)

/-- C7 counterexample: a limit-reached discount (`usage_limit = 1`,
`usage_count = 1`, active and in window) is answered with HTTP 400, not
the 404 the claim requires; and a discount whose `usage_limit` is the
falsy 0 — "set" with `usage_count ≥ usage_limit` — is served with
HTTP 200 instead of being treated as limit-reached. -/
theorem C7_counterexample :
    (DiscountViewSet.validate_code
        [{ company := 1, code := "SAVE10", type := .Percentage, value := 10,
           start_date := 0, end_date := none, usage_limit := some 1,
           usage_count := 1, is_active := true }] 1 (some "SAVE10") 5
      = .badRequest "Discount code has reached its usage limit"
      ∧ DiscountViewSet.validate_code
        [{ company := 1, code := "SAVE10", type := .Percentage, value := 10,
           start_date := 0, end_date := none, usage_limit := some 1,
           usage_count := 1, is_active := true }] 1 (some "SAVE10") 5
        ≠ .notFound)
    ∧ DiscountViewSet.validate_code
        [{ company := 1, code := "FREE", type := .Percentage, value := 10,
           start_date := 0, end_date := none, usage_limit := some 0,
           usage_count := 9, is_active := true }] 1 (some "FREE") 5
      = .ok { company := 1, code := "FREE", type := .Percentage, value := 10,
              start_date := 0, end_date := none, usage_limit := some 0,
              usage_count := 9, is_active := true } := by
  refine ⟨⟨?_, ?_⟩, ?_⟩ <;> decide

/-- C7 (amended): `validate_code`
answers 200 with the stored discount (unmodified — the handler performs no
write) exactly when a discount of the tenant matches the code, is active,
`now` lies in `[start_date, end_date]` (unbounded when `end_date` is
null), and the usage limit is not reached; it answers 404 when no such
discount matches; and it answers 400 — not 404 — when the limit is
reached, where limit-reached requires `usage_limit` set and non-zero and
`usage_count ≥ usage_limit`. -/
theorem C7_validate_code_contract (store : List Discount) (company : Nat)
    (c : String) (now : Time) (hc : c ≠ "") :
    (store.filter (DiscountViewSet.codeFilter company c now) = [] →
        DiscountViewSet.validate_code store company (some c) now = .notFound)
    ∧ (∀ d, store.filter (DiscountViewSet.codeFilter company c now) = [d] →
        d ∈ store
        ∧ (d.usage_limit.any (fun l => l ≠ 0 && d.usage_count ≥ l) = true →
            DiscountViewSet.validate_code store company (some c) now =
              .badRequest "Discount code has reached its usage limit")
        ∧ (d.usage_limit.any (fun l => l ≠ 0 && d.usage_count ≥ l) = false →
            DiscountViewSet.validate_code store company (some c) now = .ok d)) := by
  constructor
  · intro hempty
    simp [DiscountViewSet.validate_code, hc, hempty]
  · intro d hone
    refine ⟨?_, ?_, ?_⟩
    · have : d ∈ store.filter (DiscountViewSet.codeFilter company c now) := by
        rw [hone]; exact List.mem_singleton_self d
      exact List.mem_of_mem_filter this
    · intro hlim
      simp [DiscountViewSet.validate_code, hc, hone, hlim]
      simpa using hlim
    · intro hlim
      simp [DiscountViewSet.validate_code, hc, hone, hlim]
      simpa using hlim

/-- Witness for C7: the spec's own example — a discount active for all of
2024 (here `start_date = 0`, `end_date = 1000`) validates successfully
inside the window. -/
theorem C7_validate_code_contract_witness :
    ("SAVE10" : String) ≠ ""
    ∧ DiscountViewSet.validate_code
        [{ company := 1, code := "SAVE10", type := .Percentage, value := 10,
           start_date := 0, end_date := some 1000, usage_limit := none,
           usage_count := 0, is_active := true }] 1 (some "SAVE10") 500
      = .ok { company := 1, code := "SAVE10", type := .Percentage,
              value := 10, start_date := 0, end_date := some 1000,
              usage_limit := none, usage_count := 0, is_active := true } := by
  constructor
  · decide
  · exact
      ((C7_validate_code_contract
          [{ company := 1, code := "SAVE10", type := .Percentage, value := 10,
             start_date := 0, end_date := some 1000, usage_limit := none,
             usage_count := 0, is_active := true }] 1 "SAVE10" 500
          (by decide)).2
        { company := 1, code := "SAVE10", type := .Percentage, value := 10,
          start_date := 0, end_date := some 1000, usage_limit := none,
          usage_count := 0, is_active := true } (by decide)).2.2 (by decide)

/-- The association loop of `BookingSerializer.create` succeeds on a list of
same-tenant tickets, pointing each at the new booking. -/
theorem assignTickets_ok (b : Booking) : ∀ ts : List Ticket,
    (∀ t ∈ ts, t.company = b.company) →
    BookingSerializer.assignTickets b ts =
      .ok (ts.map fun t => { t with booking := some b.id })
  | [], _ => rfl
  | t :: ts, h => by
      have ht : t.company = b.company := h t (List.mem_cons_self ..)
      have ih := assignTickets_ok b ts fun x hx => h x (List.mem_cons_of_mem _ hx)
      simp [BookingSerializer.assignTickets, ht, ih]

/-- The association loop of `BookingSerializer.create` raises as soon as any
listed ticket belongs to another tenant. -/
theorem assignTickets_err (b : Booking) : ∀ ts : List Ticket,
    (∃ t ∈ ts, t.company ≠ b.company) →
    ∃ e, BookingSerializer.assignTickets b ts = .error e := by
  intro ts
  induction ts with
  | nil => rintro ⟨t, ht, _⟩; cases ht
  | cons t ts ih =>
      rintro ⟨x, hx, hxc⟩
      by_cases hc : t.company ≠ b.company
      · exact ⟨.ticketWrongCompany t.booking_reference,
          by simp [BookingSerializer.assignTickets, hc]⟩
      · push_neg at hc
        rcases List.mem_cons.mp hx with rfl | hx2
        · exact absurd hc hxc
        · obtain ⟨e, he⟩ := ih ⟨x, hx2, hxc⟩
          exact ⟨e, by simp [BookingSerializer.assignTickets, hc, he]⟩

/-- C8: booking creation is all-or-nothing under `@transaction.atomic`.
When any listed ticket belongs to a different tenant than the booking, the
request ends in an error with the store exactly as before — no booking row
exists and no ticket's booking reference changed, including tickets the
loop had already processed; on success (with a terminating generator run)
the booking is stored and every listed ticket's `booking` field points at
the new booking. -/
theorem C8_booking_all_or_nothing (user_company newId : Nat)
    (s : BookingSerializer.Store) (existing : List String)
    (draws : List RefDraw) :
    ((∃ t ∈ s.tickets_data, t.company ≠ user_company) →
        ∃ e, BookingSerializer.create user_company newId s existing draws =
          (.error e, s))
    ∧ (∀ r, generate_booking_reference existing draws = some r →
        (∀ t ∈ s.tickets_data, t.company = user_company) →
        BookingSerializer.create user_company newId s existing draws =
          (.ok { company := user_company, id := newId, booking_reference := r },
           { bookings := s.bookings ++
               [{ company := user_company, id := newId, booking_reference := r }],
             tickets_data :=
               s.tickets_data.map fun t => { t with booking := some newId } })) := by
  constructor
  · intro hbad
    cases hgen : generate_booking_reference existing draws with
    | none =>
        exact ⟨.genPending,
          by simp [BookingSerializer.create, BookingSerializer.createBody, hgen]⟩
    | some r =>
        obtain ⟨e, he⟩ :=
          assignTickets_err
            { company := user_company, id := newId, booking_reference := r }
            s.tickets_data hbad
        exact ⟨e,
          by simp [BookingSerializer.create, BookingSerializer.createBody,
            hgen, he]⟩
  · intro r hgen hall
    have h :=
      assignTickets_ok
        { company := user_company, id := newId, booking_reference := r }
        s.tickets_data hall
    simp [BookingSerializer.create, BookingSerializer.createBody, hgen, h]

/-- Witness for C8: a two-ticket same-tenant booking succeeds and assigns
both tickets; adding a foreign ticket aborts with the store unchanged. -/
theorem C8_booking_all_or_nothing_witness :
    BookingSerializer.create 1 42
        { bookings := [],
          tickets_data :=
            [{ company := 1, booking_reference := "AA000001",
               status := .Reserved, passenger_name := "a", expires_at := none,
               checked_in_at := none, checked_in_by := none,
               cancellation_reason := none, cancellation_date := none,
               refund_amount := none, refund_date := none,
               refund_reference := none, booking := none },
             { company := 1, booking_reference := "AA000002",
               status := .Confirmed, passenger_name := "b", expires_at := none,
               checked_in_at := none, checked_in_by := none,
               cancellation_reason := none, cancellation_date := none,
               refund_amount := none, refund_date := none,
               refund_reference := none, booking := none }] }
        ["AA000001", "AA000002"] [⟨0, 0, 0, 0, 0, 0, 0, 0⟩] =
      (.ok { company := 1, id := 42, booking_reference := "AA000000" },
       { bookings := [{ company := 1, id := 42,
                        booking_reference := "AA000000" }],
         tickets_data :=
           [{ company := 1, booking_reference := "AA000001",
              status := .Reserved, passenger_name := "a", expires_at := none,
              checked_in_at := none, checked_in_by := none,
              cancellation_reason := none, cancellation_date := none,
              refund_amount := none, refund_date := none,
              refund_reference := none, booking := some 42 },
            { company := 1, booking_reference := "AA000002",
              status := .Confirmed, passenger_name := "b", expires_at := none,
              checked_in_at := none, checked_in_by := none,
              cancellation_reason := none, cancellation_date := none,
              refund_amount := none, refund_date := none,
              refund_reference := none, booking := some 42 }] }) :=
  (C8_booking_all_or_nothing 1 42
      { bookings := [],
        tickets_data :=
          [{ company := 1, booking_reference := "AA000001",
             status := .Reserved, passenger_name := "a", expires_at := none,
             checked_in_at := none, checked_in_by := none,
             cancellation_reason := none, cancellation_date := none,
             refund_amount := none, refund_date := none,
             refund_reference := none, booking := none },
           { company := 1, booking_reference := "AA000002",
             status := .Confirmed, passenger_name := "b", expires_at := none,
             checked_in_at := none, checked_in_by := none,
             cancellation_reason := none, cancellation_date := none,
             refund_amount := none, refund_date := none,
             refund_reference := none, booking := none }] }
      ["AA000001", "AA000002"] [⟨0, 0, 0, 0, 0, 0, 0, 0⟩]).2
    "AA000000" rfl (by decide)

/-- C9 counterexample: a creation request that omits `type` and carries
`value = 150` passes `DiscountSerializer.validate` — the percentage check
reads `data.get('type')`, which is `None` — and is stored as a
`Percentage` discount (the model default) with value 150 > 100. -/
theorem C9_counterexample :
    DiscountSerializer.create 1 "BIG"
        { type := none, value := some 150, start_date := some 0,
          end_date := none } =
      .ok { company := 1, code := "BIG", type := .Percentage, value := 150,
            start_date := 0, end_date := none, usage_limit := none,
            usage_count := 0, is_active := true }
    ∧ (150 : Int) > 100 :=
  ⟨rfl, by norm_num⟩

/-- C9 (amended): a creation or update request that explicitly provides
`type = Percentage` with a value above 100 is rejected with a validation
error, and every discount stored from an explicit-Percentage request has
`value ≤ 100`; a request that omits `type` bypasses the check even though
the stored discount defaults to `Percentage`. -/
theorem C9_percentage_guard (user_company : Nat) (code : String)
    (req : DiscountRequest) (hty : req.type = some .Percentage) :
    ((req.value.getD 0) > 100 →
        ∃ e, DiscountSerializer.create user_company code req = .error e)
    ∧ (∀ d, DiscountSerializer.create user_company code req = .ok d →
        d.value ≤ 100 ∧ d.type = .Percentage) := by
  constructor
  · intro hv
    cases hval : DiscountSerializer.validate req with
    | error e => exact ⟨e, by simp [DiscountSerializer.create, hval]⟩
    | ok u =>
        exfalso
        unfold DiscountSerializer.validate at hval
        split at hval <;> (try split_ifs at hval) <;> simp_all
  · intro d hd
    cases hval : DiscountSerializer.validate req with
    | error e => simp [DiscountSerializer.create, hval] at hd
    | ok u =>
        have hle : ¬ 100 < req.value.getD 0 := by
          intro hv
          unfold DiscountSerializer.validate at hval
          split at hval <;> (try split_ifs at hval) <;> simp_all
        unfold DiscountSerializer.create at hd
        rw [hval] at hd
        injection hd with hd
        subst hd
        constructor
        · show req.value.getD 0 ≤ 100
          omega
        · show req.type.getD .Percentage = .Percentage
          rw [hty]
          rfl

/-- Witness for C9: an explicit Percentage request with value 150 is
rejected. -/
theorem C9_percentage_guard_witness :
    (some DiscountType.Percentage = some .Percentage)
    ∧ ∃ e, DiscountSerializer.create 1 "BIG"
        { type := some .Percentage, value := some 150, start_date := some 0,
          end_date := none } = .error e :=
  ⟨rfl,
    (C9_percentage_guard 1 "BIG"
        { type := some .Percentage, value := some 150, start_date := some 0,
          end_date := none } rfl).1 (by norm_num)⟩

/-- C10: ticket expiry never blocks mutations — check-in and cancel read
only the stored status, so their behaviour is invariant under any change
of `expires_at` (first two frame equations), a Reserved ticket checks in
and cancels successfully whatever its `expires_at` (in particular one
strictly in the past), and `expires_at` is consulted only by the
`GET /tickets/expired/` read-time filter, which lists exactly the Reserved
tickets with `expires_at < now`. -/
theorem C10_expiry_never_blocks (ticket : Ticket) (trip : Trip)
    (e : Option Time) (op : Option Nat) (reason : String) (now : Time) :
    (TicketViewSet.check_in { ticket with expires_at := e } op now =
       ((TicketViewSet.check_in ticket op now).1,
        { (TicketViewSet.check_in ticket op now).2 with expires_at := e }))
    ∧ (TicketViewSet.cancel { ticket with expires_at := e } trip reason now =
       ((TicketViewSet.cancel ticket trip reason now).1,
        { (TicketViewSet.cancel ticket trip reason now).2.1 with
            expires_at := e },
        (TicketViewSet.cancel ticket trip reason now).2.2))
    ∧ (ticket.status = .Reserved →
        (TicketViewSet.check_in ticket op now).1 = .ok ()
        ∧ (reason ≠ "" →
            (TicketViewSet.cancel ticket trip reason now).1 = .ok ()))
    ∧ (TicketViewSet.expiredFilter ticket now = true ↔
        ticket.status = .Reserved ∧ ∃ x, ticket.expires_at = some x ∧ x < now)
    := by
  refine ⟨?_, ?_, ?_, ?_⟩
  · simp only [TicketViewSet.check_in]
    split_ifs <;> simp_all
  · simp only [TicketViewSet.cancel]
    split_ifs <;> simp_all
  · intro h
    constructor
    · simp [TicketViewSet.check_in, h]
    · intro hr
      simp [TicketViewSet.cancel, h, hr]
  · simp only [TicketViewSet.expiredFilter]
    cases hx : ticket.expires_at <;> simp [hx]

/-- Witness for C10: a Reserved ticket whose `expires_at` (5) is strictly
before `now` (100) still checks in successfully. -/
theorem C10_expiry_never_blocks_witness :
    (TicketStatus.Reserved = .Reserved)
    ∧ (TicketViewSet.check_in
        { company := 1, booking_reference := "AA000000", status := .Reserved,
          passenger_name := "p", expires_at := some 5, checked_in_at := none,
          checked_in_by := none, cancellation_reason := none,
          cancellation_date := none, refund_amount := none,
          refund_date := none, refund_reference := none, booking := none }
        none 100).1 = .ok () :=
  ⟨rfl,
    ((C10_expiry_never_blocks
        { company := 1, booking_reference := "AA000000", status := .Reserved,
          passenger_name := "p", expires_at := some 5, checked_in_at := none,
          checked_in_by := none, cancellation_reason := none,
          cancellation_date := none, refund_amount := none,
          refund_date := none, refund_reference := none, booking := none }
        { company := 1, driver := 2, status := .Scheduled, capacity := 10,
          booked_seats := 5, actual_departure := none, actual_arrival := none,
          delay_reason := none, cancellation_reason := none }
        (some 5) none "r" 100).2.2.1 rfl).1⟩

end BusFleet
